import Mathlib

/-!
Verification of the mediasoup-client SDP core (`src/sdp/RemoteSdp.cpp`,
`src/sdp/MediaSection.cpp`, `src/Handler.cpp`) against its natural-language
specification.

The development is a shallow embedding: the mutable C++ objects become
explicit state records, every method becomes a state-passing function, and
C++ behavior that is undefined (dereferencing an end iterator, indexing a
vector out of range) is modelled by an `Option` result whose `none` value
marks the crash.  The JSON objects manipulated by the code are embedded as
records holding exactly the fields that the verified claims inspect or
mutate; a JSON key that a method may `erase` is an `Option` field whose
`none` value means the key is absent.
-/

namespace Mediasoup

/-! ## Media sections (`src/sdp/MediaSection.cpp`) -/

/-- Entry of the `rids` array of a media object (`id` plus `direction`). -/
structure RidEntry where
  id : String
  direction : String
deriving DecidableEq, Repr

/-- The `simulcast` object that `AnswerMediaSection` copies from the offer
media object: direction `dir1` plus the stream list `list1`. -/
structure SimulcastBlock where
  dir1 : String
  list1 : String
deriving DecidableEq, Repr

/-- The two concrete `MediaSection` subclasses; `SetDtlsRole` dispatches
virtually on this tag (`AnswerMediaSection::SetDtlsRole` maps the role,
`OfferMediaSection::SetDtlsRole` always writes `actpass`). -/
inductive SectionVariant where
  | answerV
  | offerV
deriving DecidableEq, Repr

/-- One media section's `mediaObject` JSON, restricted to the fields that the
verified claims read or write.  `port`, `mid` and `direction` drive the
open/disabled/closed lifecycle; `ext`, `ssrcs`, `ssrcGroups`, `simulcast`,
`rids` and `extmapAllowMixed` are the keys erased by `Disable`/`Close`
(`none`/`false` = key absent).  Purely textual fields of the C++ object
(`rtp`, `fmtp`, `payloads`, `rtcpFb`, codec tables, ...) are not inspected by
any claim and are omitted. -/
structure MediaSectionS where
  variant : SectionVariant
  mid : String
  kind : String
  port : Nat
  setup : String
  iceUfrag : String
  icePwd : String
  direction : Option String := none
  ext : Option Unit := none
  ssrcs : Option Unit := none
  ssrcGroups : Option Unit := none
  simulcast : Option SimulcastBlock := none
  rids : Option (List RidEntry) := none
  extmapAllowMixed : Bool := false
deriving DecidableEq, Repr

/-- `MediaSection::IsClosed`: the section is closed iff its port is 0. -/
def MediaSectionS.IsClosed (s : MediaSectionS) : Bool :=
  s.port == 0

/-- `MediaSection::Disable`: set direction `inactive` and erase the optional
keys `ext`, `ssrcs`, `ssrcGroups`, `simulcast`, `rids`; the port (and every
other field) is untouched. -/
def MediaSectionS.disable (s : MediaSectionS) : MediaSectionS :=
  { s with
    direction := some "inactive"
    ext := none
    ssrcs := none
    ssrcGroups := none
    simulcast := none
    rids := none }

/-- `MediaSection::Close`: set direction `inactive`, set the port to 0, and
erase `ext`, `ssrcs`, `ssrcGroups`, `simulcast`, `rids`, `extmapAllowMixed`. -/
def MediaSectionS.close (s : MediaSectionS) : MediaSectionS :=
  { s with
    direction := some "inactive"
    port := 0
    ext := none
    ssrcs := none
    ssrcGroups := none
    simulcast := none
    rids := none
    extmapAllowMixed := false }

/-- The value found under the `simulcast` key of an offer media object:
either a JSON object carrying `list1`, or a value of some other JSON type. -/
inductive SimulcastVal where
  | objV (list1 : String)
  | nonObj
deriving DecidableEq, Repr

/-- The value found under the `rids` key of an offer media object: either a
JSON array of rid entries, or a value of some other JSON type. -/
inductive RidsVal where
  | arrV (entries : List RidEntry)
  | nonArr
deriving DecidableEq, Repr

/-- The offer media object handed to `AnswerMediaSection` /
`RemoteSdp::CreateAnswer` (one entry of the parsed local offer's `media`
array), restricted to the fields the claims depend on.  An absent key is
`none`/`false`. -/
structure OfferMediaObject where
  mid : String
  kind : String
  simulcast : Option SimulcastVal := none
  rids : Option RidsVal := none
  extmapAllowMixedStr : Bool := false
deriving DecidableEq, Repr

/-- The simulcast/RID step of the `AnswerMediaSection` constructor
(`MediaSection.cpp` lines 393-429).  The code evaluates
`simulcastId != end && simulcastId->is_object() && ridsIt->is_array()`
left-to-right with short-circuiting; `ridsIt` is dereferenced without a
preceding `ridsIt != end` check, so when `simulcast` is present as an object
but `rids` is absent the dereference of the end iterator is undefined
behavior, modelled as `none`.  `some none` means the block is not copied;
`some (some (blk, rids))` means the block is copied with direction flipped to
`recv`, keeping only entries whose direction was `send`. -/
def answerSimulcastStep (om : OfferMediaObject) :
    Option (Option (SimulcastBlock × List RidEntry)) :=
  match om.simulcast with
  | none => some none
  | some SimulcastVal.nonObj => some none
  | some (SimulcastVal.objV list1) =>
    match om.rids with
    | none => none
    | some RidsVal.nonArr => some none
    | some (RidsVal.arrV entries) =>
      some (some
        ({ dir1 := "recv", list1 := list1 },
         (entries.filter (fun r => r.direction == "send")).map
           (fun r => { id := r.id, direction := "recv" })))

/-- The `if (dtlsRole == "client") ... else if ... else if ...` chains of
`AnswerMediaSection` (constructor and `SetDtlsRole`): an unknown role leaves
the previous `setup` value in place. -/
def answerSetupOf (role : String) (old : String) : String :=
  if role == "client" then "active"
  else if role == "server" then "passive"
  else if role == "auto" then "actpass"
  else old

/-- Virtual `MediaSection::SetDtlsRole` dispatch. -/
def setDtlsRoleSection (s : MediaSectionS) (role : String) : MediaSectionS :=
  match s.variant with
  | SectionVariant.answerV => { s with setup := answerSetupOf role s.setup }
  | SectionVariant.offerV => { s with setup := "actpass" }

/-- The `AnswerMediaSection` constructor, restricted to the modelled fields:
`mid`, `type` and `protocol` are copied from the offer media object, the port
is 7, `setup` comes from the DTLS role; audio/video sections get direction
`recvonly`, an `ext` array, `extmapAllowMixed` when the offer carries it as a
string, and the simulcast/RID block per `answerSimulcastStep` (whose crash
propagates); application sections get none of those keys.  `ssrcs` and
`ssrcGroups` are never written by this constructor. -/
def mkAnswerSection (dtlsRole iceUfrag icePwd : String) (om : OfferMediaObject) :
    Option MediaSectionS :=
  if om.kind == "audio" || om.kind == "video" then
    match answerSimulcastStep om with
    | none => none
    | some simres =>
      some
        { variant := SectionVariant.answerV
          mid := om.mid
          kind := om.kind
          port := 7
          setup := answerSetupOf dtlsRole ""
          iceUfrag := iceUfrag
          icePwd := icePwd
          direction := some "recvonly"
          ext := some ()
          ssrcs := none
          ssrcGroups := none
          simulcast := (simres.map Prod.fst)
          rids := (simres.map Prod.snd)
          extmapAllowMixed := om.extmapAllowMixedStr }
  else
    some
      { variant := SectionVariant.answerV
        mid := om.mid
        kind := om.kind
        port := 7
        setup := answerSetupOf dtlsRole ""
        iceUfrag := iceUfrag
        icePwd := icePwd }

/-- The `OfferMediaSection` constructor, restricted to the modelled fields:
port 7, `setup` fixed to `actpass`; audio/video sections get direction
`sendonly` and `ext`/`ssrcs`/`ssrcGroups` keys; application sections get
none of those keys. -/
def mkOfferSection (iceUfrag icePwd : String) (mid kind : String) : MediaSectionS :=
  if kind == "audio" || kind == "video" then
    { variant := SectionVariant.offerV
      mid := mid
      kind := kind
      port := 7
      setup := "actpass"
      iceUfrag := iceUfrag
      icePwd := icePwd
      direction := some "sendonly"
      ext := some ()
      ssrcs := some ()
      ssrcGroups := some () }
  else
    { variant := SectionVariant.offerV
      mid := mid
      kind := kind
      port := 7
      setup := "actpass"
      iceUfrag := iceUfrag
      icePwd := icePwd }

/-! ## Association-list helpers for `std::map` -/

/-- Read access of `std::map::operator[]` as used by
`RemoteSdp::CloseMediaSection`/`ReplaceMediaSection`: a missing key is
default-inserted with value 0 and 0 is returned. -/
def mapIndexRead (m : List (String × Nat)) (k : String) : Nat × List (String × Nat) :=
  match m.find? (fun p => p.1 == k) with
  | some p => (p.2, m)
  | none => (0, m ++ [(k, 0)])

/-- Write access of `std::map::operator[] = v`: replace the value if the key
is present, otherwise insert the binding. -/
def mapIndexWrite (m : List (String × Nat)) (k : String) (v : Nat) :
    List (String × Nat) :=
  if m.any (fun p => p.1 == k) then
    m.map (fun p => if p.1 == k then (k, v) else p)
  else
    m ++ [(k, v)]

/-- `std::map::erase(key)`. -/
def mapErase (m : List (String × Nat)) (k : String) : List (String × Nat) :=
  m.filter (fun p => p.1 != k)

/-- Pure lookup (`std::map::find`). -/
def mapFind (m : List (String × Nat)) (k : String) : Option Nat :=
  (m.find? (fun p => p.1 == k)).map (fun p => p.2)

/-! ## The remote SDP document (`src/sdp/RemoteSdp.cpp`) -/

/-- State of a `Sdp::RemoteSdp` object: the `mediaSections` vector, the
`midToIndex` map, `firstMid` (`""` = unset, as in the C++ `std::string`
member), and the relevant parts of the `sdpObject` JSON — its `media` array
mirror, the BUNDLE `mids` string of `groups[0]`, and
`origin.sessionVersion`.  `dtlsRole` is `dtlsParameters["role"]`;
`iceHasLite` records whether `iceParameters` declares `iceLite` and
`iceLiteFlag` whether the `icelite` key is set on the `sdpObject`. -/
structure RemoteSdpS where
  mediaSections : List MediaSectionS
  midToIndex : List (String × Nat)
  firstMid : String
  sdpMedia : List MediaSectionS
  bundleMids : String
  sessionVersion : Nat
  dtlsRole : String
  iceUfrag : String
  icePwd : String
  iceHasLite : Bool
  iceLiteFlag : Bool
deriving DecidableEq, Repr

/-- The `Sdp::RemoteSdp` constructor: no media sections, empty BUNDLE `mids`
string, session version 0, `icelite` set iff the ICE parameters declare it. -/
def mkRemoteSdp (iceUfrag icePwd : String) (iceHasLite : Bool) (dtlsRole : String) :
    RemoteSdpS :=
  { mediaSections := []
    midToIndex := []
    firstMid := ""
    sdpMedia := []
    bundleMids := ""
    sessionVersion := 0
    dtlsRole := dtlsRole
    iceUfrag := iceUfrag
    icePwd := icePwd
    iceHasLite := iceHasLite
    iceLiteFlag := iceHasLite }

/-- Loop body of `RemoteSdp::RegenerateBundleMids`: skip closed sections,
start the string with the first mid, then append `" " ++ mid`. -/
def bundleStep (mids : String) (s : MediaSectionS) : String :=
  if s.IsClosed then mids
  else if mids == "" then s.mid
  else mids ++ " " ++ s.mid

/-- `RemoteSdp::RegenerateBundleMids`: rebuild the BUNDLE `mids` string from
the non-closed sections, in vector order. -/
def regenerateBundleMids (secs : List MediaSectionS) : String :=
  secs.foldl bundleStep ""

/-- `RemoteSdp::AddMediaSection`: record `firstMid` if still unset, push the
section, index its mid, push onto the SDP `media` array, and regenerate the
BUNDLE mids. -/
def addMediaSection (d : RemoteSdpS) (s : MediaSectionS) : RemoteSdpS :=
  let secs := d.mediaSections ++ [s]
  { d with
    firstMid := if d.firstMid == "" then s.mid else d.firstMid
    mediaSections := secs
    midToIndex := mapIndexWrite d.midToIndex s.mid (secs.length - 1)
    sdpMedia := d.sdpMedia ++ [s]
    bundleMids := regenerateBundleMids secs }

/-- `RemoteSdp::ReplaceMediaSection` with a non-empty `reuseMid` (the only
way `CreateAnswer` calls it): overwrite the slot of `reuseMid`, erase the old
mid from the index, bind the new mid to the slot, restamp the SDP `media`
entry and regenerate the BUNDLE mids.  `midToIndex[reuseMid]`
default-inserts 0 for an unknown mid; an out-of-range vector access is
undefined behavior (`none`). -/
def replaceMediaSection (d : RemoteSdpS) (s : MediaSectionS) (reuseMid : String) :
    Option RemoteSdpS :=
  let (idx, m1) := mapIndexRead d.midToIndex reuseMid
  match d.mediaSections[idx]? with
  | none => none
  | some oldSection =>
    let secs := d.mediaSections.set idx s
    some
      { d with
        mediaSections := secs
        midToIndex := mapIndexWrite (mapErase m1 oldSection.mid) s.mid idx
        sdpMedia := d.sdpMedia.set idx s
        bundleMids := regenerateBundleMids secs }

/-- `RemoteSdp::CreateAnswer`: build an `AnswerMediaSection` from the offer
media object (a crash in the constructor propagates), then replace the
`reuseMid` slot when `reuseMid` is non-empty, else add a new section. -/
def createAnswer (d : RemoteSdpS) (om : OfferMediaObject) (reuseMid : String) :
    Option RemoteSdpS :=
  match mkAnswerSection d.dtlsRole d.iceUfrag d.icePwd om with
  | none => none
  | some s =>
    if reuseMid != "" then replaceMediaSection d s reuseMid
    else some (addMediaSection d s)

/-- `RemoteSdp::CreateOffer`: build an `OfferMediaSection` and add it. -/
def createOfferSection (d : RemoteSdpS) (mid kind : String) : RemoteSdpS :=
  addMediaSection d (mkOfferSection d.iceUfrag d.icePwd mid kind)

/-- `RemoteSdp::CloseMediaSection`: look the mid up (`operator[]`
default-inserts 0), `Disable` the section when the mid is the first-ever mid
(closing the first m= section would invalidate the bundled transport),
`Close` it otherwise, restamp the SDP `media` entry, and regenerate the
BUNDLE mids.  An out-of-range vector access is undefined behavior. -/
def closeMediaSection (d : RemoteSdpS) (mid : String) : Option RemoteSdpS :=
  let (idx, m1) := mapIndexRead d.midToIndex mid
  match d.mediaSections[idx]? with
  | none => none
  | some s =>
    let s1 := if mid == d.firstMid then s.disable else s.close
    let secs := d.mediaSections.set idx s1
    some
      { d with
        mediaSections := secs
        midToIndex := m1
        sdpMedia := d.sdpMedia.set idx s1
        bundleMids := regenerateBundleMids secs }

/-- Result of `RemoteSdp::GetNextMediaSectionIdx` (`reuseMid` keeps its
default empty-string value when a fresh index is returned). -/
structure MediaSectionIdx where
  idx : Nat
  reuseMid : String := ""
deriving DecidableEq, Repr

/-- Scanning loop of `GetNextMediaSectionIdx`, carrying the index of the
section at the head of the remaining list. -/
def getNextMediaSectionIdxAux : List MediaSectionS → Nat → MediaSectionIdx
  | [], n => { idx := n }
  | s :: rest, n =>
    if s.IsClosed then { idx := n, reuseMid := s.mid }
    else getNextMediaSectionIdxAux rest (n + 1)

/-- `RemoteSdp::GetNextMediaSectionIdx`: the first closed section's index and
mid if one exists, else the current section count. -/
def getNextMediaSectionIdx (secs : List MediaSectionS) : MediaSectionIdx :=
  getNextMediaSectionIdxAux secs 0

/-- `RemoteSdp::GetSdp`: read `origin.sessionVersion` as a `uint32_t`,
pre-increment (wrapping at 2^32), store it back and emit the new value in the
written text. -/
def getSdp (d : RemoteSdpS) : RemoteSdpS × Nat :=
  let v := (d.sessionVersion + 1) % 2 ^ 32
  ({ d with sessionVersion := v }, v)

/-- `RemoteSdp::UpdateDtlsRole`: store the role in `dtlsParameters`, refresh
the `icelite` key, apply `SetDtlsRole` to every section and restamp the SDP
`media` array. -/
def updateDtlsRole (d : RemoteSdpS) (role : String) : RemoteSdpS :=
  let secs := d.mediaSections.map (fun s => setDtlsRoleSection s role)
  { d with
    dtlsRole := role
    iceLiteFlag := if d.iceHasLite then true else d.iceLiteFlag
    mediaSections := secs
    sdpMedia := secs ++ d.sdpMedia.drop secs.length }

/-! ## Document operation sequences (claim C1) -/

/-- The document operations of claim C1: adding a section
(`CreateOffer`/`CreateAnswer` with empty `reuseMid`), replacing a (closed)
section (`CreateAnswer` with non-empty `reuseMid`) and closing a section
(`CloseMediaSection`). -/
inductive DocOp where
  | answerOp (om : OfferMediaObject) (reuseMid : String)
  | offerOp (mid kind : String)
  | closeOp (mid : String)
deriving DecidableEq, Repr

/-- Apply one document operation. -/
def applyDocOp (d : RemoteSdpS) : DocOp → Option RemoteSdpS
  | DocOp.answerOp om reuseMid => createAnswer d om reuseMid
  | DocOp.offerOp mid kind => some (createOfferSection d mid kind)
  | DocOp.closeOp mid => closeMediaSection d mid

/-- Apply a sequence of document operations (a crash aborts the run). -/
def applyDocOps : List DocOp → RemoteSdpS → Option RemoteSdpS
  | [], d => some d
  | op :: ops, d =>
    match applyDocOp d op with
    | none => none
    | some d1 => applyDocOps ops d1

/-! ## The BUNDLE mids string as a space-separated list -/

/-- Suffix of a space-separated rendering: each element prefixed by one
space. -/
def tailJoin : List String → String
  | [] => ""
  | m :: rest => " " ++ m ++ tailJoin rest

/-- Space-separated rendering of a list of mids: the elements in order,
separated by single spaces. -/
def spaceSep : List String → String
  | [] => ""
  | m :: rest => m ++ tailJoin rest

/-- `bundleStep` restricted to a non-closed section's mid. -/
def joinStep (mids m : String) : String :=
  if mids == "" then m else mids ++ " " ++ m

theorem bundleStep_eq (mids : String) (s : MediaSectionS) :
    bundleStep mids s = if s.IsClosed then mids else joinStep mids s.mid := by
  simp only [bundleStep, joinStep]

theorem foldl_bundleStep_eq_joinStep (secs : List MediaSectionS) :
    ∀ acc : String,
      secs.foldl bundleStep acc =
        ((secs.filter (fun s => !s.IsClosed)).map (fun s => s.mid)).foldl joinStep acc := by
  induction secs with
  | nil => intro acc; rfl
  | cons s rest ih =>
    intro acc
    cases hc : s.IsClosed with
    | false =>
      simp only [List.foldl, List.filter, hc, List.map, bundleStep_eq, if_neg, Bool.not_false,
        List.foldl_cons]
      exact ih (joinStep acc s.mid)
    | true =>
      simp only [List.foldl, List.filter, hc, bundleStep_eq, if_pos, Bool.not_true]
      exact ih acc

theorem append_space_append_ne_empty (a b : String) : a ++ " " ++ b ≠ "" := by
  intro h
  have hlen := congrArg String.length h
  simp only [String.length_append] at hlen
  have h1 : String.length " " = 1 := rfl
  have h0 : String.length "" = 0 := rfl
  omega

theorem foldl_joinStep_of_ne_empty (l : List String) :
    ∀ acc : String, acc ≠ "" → l.foldl joinStep acc = acc ++ tailJoin l := by
  induction l with
  | nil => intro acc _; simp [tailJoin, String.append_empty]
  | cons x xs ih =>
    intro acc hacc
    have hbeq : (acc == "") = false := by
      simp only [beq_eq_false_iff_ne, ne_eq]; exact hacc
    simp only [List.foldl_cons, joinStep, hbeq, Bool.false_eq_true, if_false]
    rw [ih (acc ++ " " ++ x) (append_space_append_ne_empty acc x)]
    simp only [tailJoin, String.append_assoc]

theorem foldl_joinStep_empty (l : List String) (hm : ∀ m ∈ l, m ≠ "") :
    l.foldl joinStep "" = spaceSep l := by
  cases l with
  | nil => rfl
  | cons m rest =>
    have hm0 : m ≠ "" := hm m (List.mem_cons_self m rest)
    simp only [List.foldl_cons, joinStep, if_pos, beq_self_eq_true, if_true, spaceSep]
    rw [foldl_joinStep_of_ne_empty rest m hm0]

theorem regenerateBundleMids_eq_spaceSep (secs : List MediaSectionS)
    (hm : ∀ s ∈ secs, s.mid ≠ "") :
    regenerateBundleMids secs =
      spaceSep ((secs.filter (fun s => !s.IsClosed)).map (fun s => s.mid)) := by
  rw [regenerateBundleMids, foldl_bundleStep_eq_joinStep]
  apply foldl_joinStep_empty
  intro m hmem
  obtain ⟨s, hs, rfl⟩ := List.mem_map.mp hmem
  exact hm s (List.mem_of_mem_filter hs)

/-! ## Claim C1: the BUNDLE invariant -/

theorem applyDocOp_bundle (d : RemoteSdpS) (op : DocOp) (d1 : RemoteSdpS)
    (h : applyDocOp d op = some d1) :
    d1.bundleMids = regenerateBundleMids d1.mediaSections := by
  cases op with
  | answerOp om reuseMid =>
    simp only [applyDocOp, createAnswer] at h
    cases hmk : mkAnswerSection d.dtlsRole d.iceUfrag d.icePwd om with
    | none => rw [hmk] at h; exact absurd h (by simp)
    | some s =>
      rw [hmk] at h
      by_cases hr : reuseMid != ""
      · simp only [hr, if_true, replaceMediaSection] at h
        cases hidx : d.mediaSections[(mapIndexRead d.midToIndex reuseMid).1]? with
        | none => rw [hidx] at h; exact absurd h (by simp)
        | some oldSection => rw [hidx] at h; cases h; rfl
      · simp only [hr, if_false, addMediaSection] at h
        cases h; rfl
  | offerOp mid kind =>
    simp only [applyDocOp, createOfferSection, addMediaSection] at h
    cases h; rfl
  | closeOp mid =>
    simp only [applyDocOp, closeMediaSection] at h
    cases hidx : d.mediaSections[(mapIndexRead d.midToIndex mid).1]? with
    | none => rw [hidx] at h; exact absurd h (by simp)
    | some s => rw [hidx] at h; cases h; rfl

theorem applyDocOps_bundle (ops : List DocOp) :
    ∀ d st : RemoteSdpS, applyDocOps ops d = some st →
      d.bundleMids = regenerateBundleMids d.mediaSections →
      st.bundleMids = regenerateBundleMids st.mediaSections := by
  induction ops with
  | nil => intro d st h hd; cases h; exact hd
  | cons op ops ih =>
    intro d st h hd
    simp only [applyDocOps] at h
    cases hop : applyDocOp d op with
    | none => rw [hop] at h; exact absurd h (by simp)
    | some d1 =>
      rw [hop] at h
      exact ih d1 st h (applyDocOp_bundle d op d1 hop)

/-- C1: for every sequence of document operations (adding a section,
replacing a closed section, closing a section) starting from a freshly
initialized document, the BUNDLE `mids` string of the document equals the
mids of the currently non-closed media sections, space-separated, in
ascending section-index order (stated for the mids actually occurring, which
are non-empty strings). -/
theorem bundleMids_eq_open_section_mids (u p : String) (lite : Bool) (role : String)
    (ops : List DocOp) (st : RemoteSdpS)
    (h : applyDocOps ops (mkRemoteSdp u p lite role) = some st)
    (hm : ∀ s ∈ st.mediaSections, s.mid ≠ "") :
    st.bundleMids =
      spaceSep ((st.mediaSections.filter (fun s => !s.IsClosed)).map (fun s => s.mid)) := by
  have hinv : st.bundleMids = regenerateBundleMids st.mediaSections :=
    applyDocOps_bundle ops (mkRemoteSdp u p lite role) st h rfl
  rw [hinv]
  exact regenerateBundleMids_eq_spaceSep st.mediaSections hm

/-! ## Claim C4: `GetNextMediaSectionIdx` -/

theorem getNextMediaSectionIdxAux_shift (secs : List MediaSectionS) :
    ∀ n : Nat,
      getNextMediaSectionIdxAux secs (n + 1) =
        { idx := (getNextMediaSectionIdxAux secs n).idx + 1,
          reuseMid := (getNextMediaSectionIdxAux secs n).reuseMid } := by
  induction secs with
  | nil => intro n; rfl
  | cons s rest ih =>
    intro n
    cases hc : s.IsClosed with
    | true => simp [getNextMediaSectionIdxAux, hc]
    | false => simp [getNextMediaSectionIdxAux, hc, ih]

/-- C4: `GetNextMediaSectionIdx` returns the index and mid of the
lowest-index closed media section when one exists; otherwise it returns an
index equal to the current number of media sections and the default (empty)
reuse mid.  The function is pure: it takes the section list and returns only
the slot, modifying nothing. -/
theorem getNextMediaSectionIdx_spec (secs : List MediaSectionS) :
    ((getNextMediaSectionIdx secs).idx = secs.length ∧
      (getNextMediaSectionIdx secs).reuseMid = "" ∧
      ∀ s ∈ secs, s.IsClosed = false) ∨
    (∃ s, secs[(getNextMediaSectionIdx secs).idx]? = some s ∧ s.IsClosed = true ∧
      (getNextMediaSectionIdx secs).reuseMid = s.mid ∧
      ∀ j, j < (getNextMediaSectionIdx secs).idx →
        ∀ t, secs[j]? = some t → t.IsClosed = false) := by
  induction secs with
  | nil =>
    left
    refine ⟨rfl, rfl, ?_⟩
    intro s hs
    exact absurd hs (List.not_mem_nil s)
  | cons s rest ih =>
    cases hc : s.IsClosed with
    | true =>
      right
      refine ⟨s, ?_, hc, ?_, ?_⟩
      · simp [getNextMediaSectionIdx, getNextMediaSectionIdxAux, hc]
      · simp [getNextMediaSectionIdx, getNextMediaSectionIdxAux, hc]
      · intro j hj
        have : (getNextMediaSectionIdx (s :: rest)).idx = 0 := by
          simp [getNextMediaSectionIdx, getNextMediaSectionIdxAux, hc]
        omega
    | false =>
      have hunf : getNextMediaSectionIdx (s :: rest) =
          { idx := (getNextMediaSectionIdx rest).idx + 1,
            reuseMid := (getNextMediaSectionIdx rest).reuseMid } := by
        simp only [getNextMediaSectionIdx, getNextMediaSectionIdxAux, hc,
          Bool.false_eq_true, if_false]
        exact getNextMediaSectionIdxAux_shift rest 0
      cases ih with
      | inl hl =>
        left
        obtain ⟨h1, h2, h3⟩ := hl
        refine ⟨?_, ?_, ?_⟩
        · rw [hunf]; simp [h1]
        · rw [hunf]; exact h2
        · intro t ht
          cases List.mem_cons.mp ht with
          | inl heq => rw [heq]; exact hc
          | inr hmem => exact h3 t hmem
      | inr hr =>
        right
        obtain ⟨t, h1, h2, h3, h4⟩ := hr
        refine ⟨t, ?_, h2, ?_, ?_⟩
        · rw [hunf]; simpa using h1
        · rw [hunf]; exact h3
        · intro j hj u hu
          rw [hunf] at hj
          cases j with
          | zero =>
            simp only [List.getElem?_cons_zero, Option.some.injEq] at hu
            rw [← hu]; exact hc
          | succ k =>
            simp only [List.getElem?_cons_succ] at hu
            change k + 1 < (getNextMediaSectionIdx rest).idx + 1 at hj
            exact h4 k (by omega) u hu

/-! ## Claim C5: closing the anchor section only disables it -/

/-- C5: closing the section whose mid is the document's first-ever (anchor)
mid takes the `Disable` branch: the optional keys (`ext`, `ssrcs`,
`ssrcGroups`, `simulcast`, `rids`) are erased, the direction becomes
`inactive`, and the port and every other field are unchanged — in particular
the port is never set to 0, so a previously non-closed anchor section is not
counted as closed afterward. -/
theorem closeMediaSection_firstMid_disables (d : RemoteSdpS) (idx : Nat)
    (s : MediaSectionS)
    (hfind : mapFind d.midToIndex d.firstMid = some idx)
    (hidx : d.mediaSections[idx]? = some s) :
    closeMediaSection d d.firstMid =
      some { d with
              mediaSections := d.mediaSections.set idx s.disable,
              sdpMedia := d.sdpMedia.set idx s.disable,
              bundleMids :=
                regenerateBundleMids (d.mediaSections.set idx s.disable) } ∧
    s.disable.port = s.port ∧
    s.disable.direction = some "inactive" ∧
    s.disable.ext = none ∧
    s.disable.ssrcs = none ∧
    s.disable.ssrcGroups = none ∧
    s.disable.simulcast = none ∧
    s.disable.rids = none ∧
    s.disable.mid = s.mid ∧
    s.disable.kind = s.kind ∧
    s.disable.setup = s.setup ∧
    s.disable.iceUfrag = s.iceUfrag ∧
    s.disable.icePwd = s.icePwd ∧
    s.disable.extmapAllowMixed = s.extmapAllowMixed ∧
    (s.IsClosed = false → s.disable.IsClosed = false) := by
  have hread : mapIndexRead d.midToIndex d.firstMid = (idx, d.midToIndex) := by
    simp only [mapFind, Option.map_eq_some'] at hfind
    obtain ⟨p, hp, hp2⟩ := hfind
    simp only [mapIndexRead, hp, hp2]
  refine ⟨?_, rfl, rfl, rfl, rfl, rfl, rfl, rfl, rfl, rfl, rfl, rfl, rfl, rfl, ?_⟩
  · simp only [closeMediaSection, hread, hidx, beq_self_eq_true, if_pos]
  · intro h
    simpa only [MediaSectionS.IsClosed, MediaSectionS.disable] using h

/-! ## Claim C6: session-version monotonicity of `GetSdp` -/

/-- 2^32, the wrap-around modulus of the `uint32_t` session version. -/
def uint32Mod : Nat := 4294967296

theorem getSdp_version_eq (d : RemoteSdpS) :
    (getSdp d).2 = (d.sessionVersion + 1) % uint32Mod ∧
    (getSdp d).1.sessionVersion = (d.sessionVersion + 1) % uint32Mod := by
  constructor <;> rfl

/-- Iterated `GetSdp` calls (used to exhibit the wrap-around state). -/
def getSdpIter : Nat → RemoteSdpS → RemoteSdpS
  | 0, d => d
  | n + 1, d => getSdpIter n (getSdp d).1

theorem getSdpIter_version (n : Nat) :
    ∀ d : RemoteSdpS,
      (getSdpIter n d).sessionVersion = (d.sessionVersion + n) % uint32Mod ∨
      (n = 0 ∧ getSdpIter n d = d) := by
  induction n with
  | zero => intro d; right; exact ⟨rfl, rfl⟩
  | succ k ih =>
    intro d
    left
    cases ih (getSdp d).1 with
    | inl h =>
      rw [getSdpIter, h, (getSdp_version_eq d).2]
      show ((d.sessionVersion + 1) % uint32Mod + k) % uint32Mod =
        (d.sessionVersion + (k + 1)) % uint32Mod
      unfold uint32Mod
      omega
    | inr h =>
      obtain ⟨hk, hd⟩ := h
      subst hk
      rw [getSdpIter, hd, (getSdp_version_eq d).2]

theorem applyDocOp_version (d : RemoteSdpS) (op : DocOp) (d1 : RemoteSdpS)
    (h : applyDocOp d op = some d1) :
    d1.sessionVersion = d.sessionVersion := by
  cases op with
  | answerOp om reuseMid =>
    simp only [applyDocOp, createAnswer] at h
    cases hmk : mkAnswerSection d.dtlsRole d.iceUfrag d.icePwd om with
    | none => rw [hmk] at h; exact absurd h (by simp)
    | some s =>
      rw [hmk] at h
      by_cases hr : reuseMid != ""
      · simp only [hr, if_true, replaceMediaSection] at h
        cases hidx : d.mediaSections[(mapIndexRead d.midToIndex reuseMid).1]? with
        | none => rw [hidx] at h; exact absurd h (by simp)
        | some oldSection => rw [hidx] at h; cases h; rfl
      · simp only [hr, if_false, addMediaSection] at h
        cases h; rfl
  | offerOp mid kind =>
    simp only [applyDocOp, createOfferSection, addMediaSection] at h
    cases h; rfl
  | closeOp mid =>
    simp only [applyDocOp, closeMediaSection] at h
    cases hidx : d.mediaSections[(mapIndexRead d.midToIndex mid).1]? with
    | none => rw [hidx] at h; exact absurd h (by simp)
    | some s => rw [hidx] at h; cases h; rfl

theorem applyDocOps_version (ops : List DocOp) :
    ∀ d st : RemoteSdpS, applyDocOps ops d = some st →
      st.sessionVersion = d.sessionVersion := by
  induction ops with
  | nil => intro d st h; cases h; rfl
  | cons op ops ih =>
    intro d st h
    simp only [applyDocOps] at h
    cases hop : applyDocOp d op with
    | none => rw [hop] at h; exact absurd h (by simp)
    | some d1 =>
      rw [hop] at h
      rw [ih d1 st h, applyDocOp_version d op d1 hop]

/-- C6 (amended): every `GetSdp` call stores and emits
`(sessionVersion + 1) mod 2^32`; document operations in between do not touch
the stored version, so the version emitted by the next `GetSdp` call is
strictly greater than the previous one whenever the previous emitted value
was not `2^32 - 1` (the `uint32_t` wrap-around point). -/
theorem getSdp_version_strictly_increases (d : RemoteSdpS) (ops : List DocOp)
    (st : RemoteSdpS) (h : applyDocOps ops (getSdp d).1 = some st)
    (hv : (getSdp d).2 ≠ uint32Mod - 1) :
    (getSdp st).2 > (getSdp d).2 := by
  have h1 := (getSdp_version_eq d).1
  have h2 := (getSdp_version_eq d).2
  have h3 := applyDocOps_version ops (getSdp d).1 st h
  have h4 := (getSdp_version_eq st).1
  rw [h3, h2] at h4
  unfold uint32Mod at h1 h4 hv
  omega

/-- Fresh document used for the wrap-around counterexample. -/
def c6Doc : RemoteSdpS := mkRemoteSdp "uf" "pw" false "auto"

/-- C6 (counterexample): on the document reached from a fresh one by
2^32 - 2 `GetSdp` calls, the next `GetSdp` call emits `2^32 - 1` and the one
after it emits 0 — the second of two consecutive emitted session versions is
not strictly greater than the first, because the `uint32_t` version wraps. -/
theorem getSdp_version_wraparound :
    ¬ ((getSdp (getSdp (getSdpIter 4294967294 c6Doc)).1).2 >
        (getSdp (getSdpIter 4294967294 c6Doc)).2) := by
  have hv0 : c6Doc.sessionVersion = 0 := rfl
  have hiter := getSdpIter_version 4294967294 c6Doc
  have hver : (getSdpIter 4294967294 c6Doc).sessionVersion = 4294967294 := by
    cases hiter with
    | inl h => rw [h, hv0]; unfold uint32Mod; omega
    | inr h => exact absurd h.1 (by omega)
  have h1 := (getSdp_version_eq (getSdpIter 4294967294 c6Doc)).1
  have h2 := (getSdp_version_eq (getSdpIter 4294967294 c6Doc)).2
  have h3 := (getSdp_version_eq (getSdp (getSdpIter 4294967294 c6Doc)).1).1
  rw [hver] at h1 h2
  rw [h2] at h3
  unfold uint32Mod at h1 h3
  omega

/-! ## Claim C7: the SCTP stream identifier allocator -/

/-- `SctpNumStreamsMis` from `Handler.cpp`: the fixed MIS stream count,
1024, which is also the wrap-around modulus of the allocator. -/
def SctpNumStreamsMis : Nat := 1024

/-- Modelled from the spec: the initial value of `nextSendSctpStreamId` is
set in `Handler.hpp`, which is not among the sources; per the spec the SCTP
stream identifier allocator "starts at 0". -/
def nextSendSctpStreamIdInit : Nat := 0

/-- One allocation (`SendDataChannel` / `ReceiveDataChannel`): the current
`nextSendSctpStreamId` is handed to the new channel, then the counter is set
to `(counter + 1) % SctpNumStreamsMis`.  No code path in the sources ever
decrements or resets the counter (closing a channel does not touch it). -/
def allocSctpStreamId (s : Nat) : Nat × Nat :=
  (s, (s + 1) % SctpNumStreamsMis)

/-- Counter value after `n` allocations. -/
def sctpStreamIdStateAfter : Nat → Nat
  | 0 => nextSendSctpStreamIdInit
  | n + 1 => (allocSctpStreamId (sctpStreamIdStateAfter n)).2

theorem sctpStreamIdStateAfter_eq (n : Nat) : sctpStreamIdStateAfter n = n % 1024 := by
  induction n with
  | zero => rfl
  | succ k ih =>
    show (sctpStreamIdStateAfter k + 1) % SctpNumStreamsMis = (k + 1) % 1024
    rw [ih]
    unfold SctpNumStreamsMis
    omega

/-- C7: the n-th data channel created on a handler receives SCTP stream
identifier `n mod 1024`, and the counter advances to `(n+1) mod 1024`: the
allocator yields 0, 1, ..., 1023, 0, 1, ... regardless of interleaved
channel closures, which never touch the counter. -/
theorem sctpStreamId_nth (n : Nat) :
    (allocSctpStreamId (sctpStreamIdStateAfter n)).1 = n % 1024 ∧
    (allocSctpStreamId (sctpStreamIdStateAfter n)).2 = (n + 1) % 1024 := by
  constructor
  · show sctpStreamIdStateAfter n = n % 1024
    exact sctpStreamIdStateAfter_eq n
  · show (sctpStreamIdStateAfter n + 1) % SctpNumStreamsMis = (n + 1) % 1024
    rw [sctpStreamIdStateAfter_eq]
    unfold SctpNumStreamsMis
    omega

/-! ## Claim C10: the simulcast/RID step of `AnswerMediaSection` -/

/-- The offer media object contains a `simulcast` key whose value is a JSON
object (`simulcastId != end && simulcastId->is_object()`). -/
def hasSimulcastObj (om : OfferMediaObject) : Bool :=
  match om.simulcast with
  | some (SimulcastVal.objV _) => true
  | _ => false

/-- The offer media object contains a `rids` key whose value is a JSON array
(`ridsIt->is_array()` after a successful lookup). -/
def hasRidsArr (om : OfferMediaObject) : Bool :=
  match om.rids with
  | some (RidsVal.arrV _) => true
  | _ => false

/-- Offer media object with a non-object `simulcast` value and no `rids`
key: the short-circuit at `is_object()` makes construction total here. -/
def c10Offer : OfferMediaObject :=
  { mid := "0", kind := "video", simulcast := some SimulcastVal.nonObj, rids := none }

/-- C10 (counterexample): an offer media object that contains `simulcast`
(as a non-object value) and no `rids` entry, on which the simulcast/RID step
nevertheless completes without reading past the end of the object — so
construction being total does not imply that every offer media object
containing `simulcast` also contains `rids`, contradicting the claim's
"only under" precondition (and its "whenever 'simulcast' is present the
constructor dereferences ... 'rids'"). -/
theorem answerSimulcastStep_total_without_rids :
    (answerSimulcastStep c10Offer).isSome = true ∧
    c10Offer.simulcast.isSome = true ∧
    c10Offer.rids.isSome = false :=
  ⟨rfl, rfl, rfl⟩

/-- C10 (amended): the simulcast/RID block is copied exactly when the offer
media object contains `simulcast` as an object and `rids` as an array; and
the step is total (no dereference of the failed `rids` lookup) exactly when
the presence of `simulcast` *as an object* implies that a `rids` entry is
present. -/
theorem answerSimulcastStep_spec (om : OfferMediaObject) :
    ((answerSimulcastStep om).isSome = true ↔
      (hasSimulcastObj om = true → om.rids.isSome = true)) ∧
    ((∃ blk rids, answerSimulcastStep om = some (some (blk, rids))) ↔
      hasSimulcastObj om = true ∧ hasRidsArr om = true) := by
  obtain ⟨mid, kind, sim, rids, ex⟩ := om
  cases sim with
  | none => simp [answerSimulcastStep, hasSimulcastObj, hasRidsArr]
  | some sv =>
    cases sv with
    | nonObj => simp [answerSimulcastStep, hasSimulcastObj, hasRidsArr]
    | objV l1 =>
      cases rids with
      | none => simp [answerSimulcastStep, hasSimulcastObj, hasRidsArr]
      | some rv =>
        cases rv with
        | nonArr => simp [answerSimulcastStep, hasSimulcastObj, hasRidsArr]
        | arrV entries => simp [answerSimulcastStep, hasSimulcastObj, hasRidsArr]

/-- Offer media object with a proper simulcast object and rids array, used
to witness `answerSimulcastStep_spec`. -/
def c10OfferOk : OfferMediaObject :=
  { mid := "1", kind := "video",
    simulcast := some (SimulcastVal.objV "r0;r1"),
    rids := some (RidsVal.arrV [{ id := "r0", direction := "send" },
                                { id := "r1", direction := "send" }]) }

theorem answerSimulcastStep_spec_witness :
    ((answerSimulcastStep c10OfferOk).isSome = true ↔
      (hasSimulcastObj c10OfferOk = true → c10OfferOk.rids.isSome = true)) ∧
    ((∃ blk rids, answerSimulcastStep c10OfferOk = some (some (blk, rids))) ↔
      hasSimulcastObj c10OfferOk = true ∧ hasRidsArr c10OfferOk = true) :=
  answerSimulcastStep_spec c10OfferOk

/-! ## The send handler (`src/Handler.cpp`, `SendHandler::Send`) -/

/-- `webrtc::RtpTransceiverDirection`. -/
inductive RtpTransceiverDirection where
  | sendRecv
  | sendOnly
  | recvOnly
  | inactive
deriving DecidableEq, Repr

/-- A media source (`webrtc::MediaStreamTrackInterface`): its kind selects
the RTP parameters, its id only labels it. -/
structure Track where
  kind : String
  id : String
deriving DecidableEq, Repr

/-- Observable state of the transceiver the send operation creates:
its direction and its attached track. -/
structure TransceiverState where
  direction : RtpTransceiverDirection
  track : Option Track
deriving DecidableEq, Repr

/-- `webrtc::Priority` (the `network_priority` field). -/
inductive Priority where
  | veryLow
  | low
  | medium
  | high
deriving DecidableEq, Repr

/-- `webrtc::RtpEncodingParameters`, restricted to the fields that
`SendHandler::Send` and `fillJsonRtpEncodingParameters` read.
`max_framerate` and `scale_resolution_down_by` are `double` in webrtc; the
code only copies them verbatim, so the carrier type is immaterial and `Nat`
is used. -/
structure RtpEncodingParameters where
  active : Bool := true
  rid : String := ""
  maxBitrateBps : Option Nat := none
  maxFramerate : Option Nat := none
  scaleResolutionDownBy : Option Nat := none
  networkPriority : Priority := Priority.low
deriving DecidableEq, Repr

/-- One JSON encoding object inside `rtpParameters["encodings"]`; `none`
means the key is absent.  `ssrc` stands for the engine-derived fields that
`Sdp::Utils::getRtpEncodings` extracts from the local offer. -/
structure JsonEncoding where
  ssrc : Option Nat := none
  rid : Option String := none
  active : Option Bool := none
  maxBitrate : Option Nat := none
  maxFramerate : Option Nat := none
  scaleResolutionDownBy : Option Nat := none
  networkPriority : Option Priority := none
  scalabilityMode : Option String := none
deriving DecidableEq, Repr

/-- `fillJsonRtpEncodingParameters` (`Handler.cpp` lines 853-872): `active`
and `networkPriority` are written unconditionally; `rid` only when non-empty;
`maxBitrate`, `maxFramerate` and `scaleResolutionDownBy` only when the
optional is engaged; every other key of the JSON encoding is untouched. -/
def fillJsonRtpEncodingParameters (jsonEncoding : JsonEncoding)
    (encoding : RtpEncodingParameters) : JsonEncoding :=
  { jsonEncoding with
    active := some encoding.active
    rid := if encoding.rid != "" then some encoding.rid else jsonEncoding.rid
    maxBitrate :=
      match encoding.maxBitrateBps with
      | some v => some v
      | none => jsonEncoding.maxBitrate
    maxFramerate :=
      match encoding.maxFramerate with
      | some v => some v
      | none => jsonEncoding.maxFramerate
    scaleResolutionDownBy :=
      match encoding.scaleResolutionDownBy with
      | some v => some v
      | none => jsonEncoding.scaleResolutionDownBy
    networkPriority := some encoding.networkPriority }

/-- One codec object of `rtpParameters["codecs"]`; only `mimeType` is read
by `SendHandler::Send`. -/
structure Codec where
  mimeType : String
deriving DecidableEq, Repr

/-- The per-kind `rtpParameters` JSON of the send handler, restricted to the
keys `SendHandler::Send` reads or writes. -/
structure RtpParams where
  mid : Option String := none
  rtcpCname : Option String := none
  encodings : List JsonEncoding := []
  codecs : List Codec := []
deriving DecidableEq, Repr

/-- Polymorphic association lookup (`std::map::find` / json key lookup). -/
def assocFind {α : Type} (m : List (String × α)) (k : String) : Option α :=
  (m.find? (fun p => p.1 == k)).map (fun p => p.2)

/-- Lookup with a default (json `operator[]` materializes a null value for a
missing key, which subsequent assignments turn into the object written). -/
def assocGetD {α : Type} (m : List (String × α)) (k : String) (v0 : α) : α :=
  match assocFind m k with
  | some v => v
  | none => v0

/-- Association write: replace if present, insert otherwise. -/
def assocWrite {α : Type} (m : List (String × α)) (k : String) (v : α) :
    List (String × α) :=
  if m.any (fun p => p.1 == k) then
    m.map (fun p => if p.1 == k then (k, v) else p)
  else
    m ++ [(k, v)]

/-- ASCII `::tolower` applied characterwise (`std::transform` over the mime
type). -/
def asciiLower (c : Char) : Char :=
  if 'A' ≤ c ∧ c ≤ 'Z' then Char.ofNat (c.toNat + 32) else c

def toLowerAscii (s : String) : String :=
  String.mk (s.data.map asciiLower)

/-- RID assignment of `SendHandler::Send` (lines 176-184): when more than
one encoding is given, each encoding's `rid` becomes `"r" + idx` with a
`uint8_t` counter starting at 0 (hence wrapping at 256). -/
def assignRidsFrom (i : Nat) : List RtpEncodingParameters → List RtpEncodingParameters
  | [] => []
  | e :: es => { e with rid := "r" ++ toString (i % 256) } :: assignRidsFrom (i + 1) es

/-- The caller encodings after the RID-assignment step (`nullptr` stays
`none`; a list of size ≤ 1 is untouched). -/
def ridAdjust (encodings : Option (List RtpEncodingParameters)) :
    Option (List RtpEncodingParameters) :=
  match encodings with
  | some es => some (if es.length > 1 then assignRidsFrom 0 es else es)
  | none => none

/-- The encoding population step of `SendHandler::Send` (lines 247-274):
no caller encodings — the engine-offer-derived encodings verbatim; exactly
one — the engine-derived list with the caller encoding's explicit fields
overlaid onto its front (calling `front()` on an empty engine list is
undefined behavior, `none`); more than one — the caller encodings rendered
into fresh JSON objects, discarding the engine-derived list. -/
def populateEncodings (caller : Option (List RtpEncodingParameters))
    (engineEncs : List JsonEncoding) : Option (List JsonEncoding) :=
  match caller with
  | none => some engineEncs
  | some [] => some engineEncs
  | some [e] =>
    match engineEncs with
    | [] => none
    | j :: js => some (fillJsonRtpEncodingParameters j e :: js)
  | some es => some (es.map (fun e => fillJsonRtpEncodingParameters {} e))

/-- The scalability-mode step of `SendHandler::Send` (lines 276-295): when
the lower-cased primary mime type is `video/vp8` or `video/h264` and more
than one encoding resulted, stamp `scalabilityMode = "S1T3"` onto every
encoding; otherwise leave the list untouched. -/
def stampScalability (mimeType : String) (encs : List JsonEncoding) :
    List JsonEncoding :=
  let m := toLowerAscii mimeType
  if encs.length > 1 && (m == "video/vp8" || m == "video/h264") then
    encs.map (fun e => { e with scalabilityMode := some "S1T3" })
  else encs

/-- Behavior of the transport-engine collaborator (`PeerConnection`) and of
the `Sdp::Utils` extraction helpers during one send operation: which engine
calls succeed, the transceiver mid the engine assigns after
`SetLocalDescription`, and what the engine's own local offer contains at the
claimed media-section index (its media object, the cname and the encodings
that `Sdp::Utils::getCname` / `getRtpEncodings` extract from it). -/
structure Engine where
  addTransceiverOk : Bool := true
  createOfferOk : Bool := true
  onConnectOk : Bool := true
  setLocalOk : Bool := true
  setRemoteOk : Bool := true
  transceiverMid : Option String := none
  offerCname : String := ""
  offerEncodings : List JsonEncoding := []
  offerMediaObject : OfferMediaObject
deriving DecidableEq, Repr

/-- State of a `SendHandler`: the remote SDP document, the
`transportReady` flag, the `mapMidTransceiver` registry (values elided — the
claims only inspect the key set and size), and the per-kind sending RTP
parameters. -/
structure SendHandlerS where
  remoteSdp : RemoteSdpS
  transportReady : Bool := false
  mapMidTransceiver : List (String × Unit) := []
  sendingRtpParametersByKind : List (String × RtpParams) := []
deriving DecidableEq, Repr

/-- The exceptions `SendHandler::Send` can propagate, by throw site:
`missingTrack` (argument check), `nullTransceiver` (`AddTransceiver`
returned null), `createOfferFailed` / `connectFailed` / `setLocalFailed` /
`midAbsent` (inside the try block), `primaryCodecMissing` (the json access
`codecs[0]["mimeType"].get<string>()` throws after the try block), and
`setRemoteFailed` (`SetRemoteDescription`). -/
inductive SendErr where
  | missingTrack
  | nullTransceiver
  | createOfferFailed
  | connectFailed
  | setLocalFailed
  | midAbsent
  | primaryCodecMissing
  | setRemoteFailed
deriving DecidableEq, Repr

/-- `SendHandler::SendResult` (the `rtpSender` handle is elided). -/
structure SendResult where
  localId : String
  rtpParameters : RtpParams
deriving DecidableEq, Repr

/-- `Handler::SetupTransport`: patch the remote document's DTLS role to the
opposite of the local role, then hand the local DTLS parameters to
`OnConnect` (which may fail); only after it returns is `transportReady`
set.  A failure leaves the already-patched document in place. -/
def setupTransport (localDtlsRole : String) (eng : Engine) (st : SendHandlerS) :
    SendHandlerS × Bool :=
  let remoteDtlsRole := if localDtlsRole == "client" then "server" else "client"
  let st1 := { st with remoteSdp := updateDtlsRole st.remoteSdp remoteDtlsRole }
  if eng.onConnectOk then ({ st1 with transportReady := true }, true)
  else (st1, false)

/-- The part of `SendHandler::Send` following the try block (`Handler.cpp`
lines 237-321), starting from the point where the engine has committed the
local offer and assigned `localId`: set the mid and cname on the per-kind
sending RTP parameters, populate the encodings, stamp the scalability mode,
commit the answer section into the remote document (`CreateAnswer`),
serialize it (`GetSdp`), push it to the engine (`SetRemoteDescription`,
which may fail after the document is already committed) and finally record
the mid-to-transceiver association.  Mutations performed before a throw
survive, as on the C++ member objects; undefined behavior (`front()` on an
empty engine encoding list, a crash inside `CreateAnswer`) yields `none`. -/
def sendPostTry (eng : Engine) (tk : Track) (localId : String)
    (encodings1 : Option (List RtpEncodingParameters)) (reuseMid : String)
    (st1 : SendHandlerS) :
    Option (SendHandlerS × Option TransceiverState × Except SendErr SendResult) :=
  let tr : TransceiverState :=
    { direction := RtpTransceiverDirection.sendOnly, track := some tk }
  let params0 := assocGetD st1.sendingRtpParametersByKind tk.kind {}
  let params1 := { params0 with mid := some localId }
  let params2 := { params1 with rtcpCname := some eng.offerCname }
  match populateEncodings encodings1 eng.offerEncodings with
  | none => none
  | some encs1 =>
    let params3 := { params2 with encodings := encs1 }
    match params3.codecs with
    | [] =>
      some ({ st1 with
                sendingRtpParametersByKind :=
                  assocWrite st1.sendingRtpParametersByKind tk.kind params3 },
            some tr, Except.error SendErr.primaryCodecMissing)
    | c :: _ =>
      let encs2 := stampScalability c.mimeType encs1
      let params4 := { params3 with encodings := encs2 }
      let st2 := { st1 with
                    sendingRtpParametersByKind :=
                      assocWrite st1.sendingRtpParametersByKind tk.kind params4 }
      match createAnswer st2.remoteSdp eng.offerMediaObject reuseMid with
      | none => none
      | some rsdp1 =>
        let st3 := { st2 with remoteSdp := (getSdp rsdp1).1 }
        if !eng.setRemoteOk then
          some (st3, some tr, Except.error SendErr.setRemoteFailed)
        else
          some ({ st3 with
                    mapMidTransceiver :=
                      assocWrite st3.mapMidTransceiver localId () },
                some tr,
                Except.ok { localId := localId, rtpParameters := params4 })

/-- `SendHandler::Send` (`Handler.cpp` lines 163-322), as a state-passing
function.  The returned triple is the handler state at exit, the state of the
transceiver created by this operation (`none` when none was created), and
either the thrown exception or the result.  The catch block rolls the
transceiver back to direction `inactive` with its track cleared before
re-raising; the engine-call failures it covers are `CreateOffer`,
`SetupTransport`/`OnConnect`, `SetLocalDescription` and the
`mid().value()` read-back. -/
def send (eng : Engine) (track : Option Track)
    (encodings : Option (List RtpEncodingParameters)) (st : SendHandlerS) :
    Option (SendHandlerS × Option TransceiverState × Except SendErr SendResult) :=
  match track with
  | none => some (st, none, Except.error SendErr.missingTrack)
  | some tk =>
    let encodings1 := ridAdjust encodings
    let mediaSectionIdx := getNextMediaSectionIdx st.remoteSdp.mediaSections
    if !eng.addTransceiverOk then
      some (st, none, Except.error SendErr.nullTransceiver)
    else
      let rolledBack : TransceiverState :=
        { direction := RtpTransceiverDirection.inactive, track := none }
      if !eng.createOfferOk then
        some (st, some rolledBack, Except.error SendErr.createOfferFailed)
      else
        let step := if !st.transportReady then setupTransport "server" eng st else (st, true)
        let st1 := step.1
        if !step.2 then
          some (st1, some rolledBack, Except.error SendErr.connectFailed)
        else if !eng.setLocalOk then
          some (st1, some rolledBack, Except.error SendErr.setLocalFailed)
        else
          match eng.transceiverMid with
          | none => some (st1, some rolledBack, Except.error SendErr.midAbsent)
          | some localId =>
            sendPostTry eng tk localId encodings1 mediaSectionIdx.reuseMid st1

theorem sendPostTry_error (eng : Engine) (tk : Track) (localId : String)
    (encodings1 : Option (List RtpEncodingParameters)) (reuseMid : String)
    (st1 st2 : SendHandlerS) (otr : Option TransceiverState) (err : SendErr)
    (h : sendPostTry eng tk localId encodings1 reuseMid st1 =
      some (st2, otr, Except.error err)) :
    st2.mapMidTransceiver = st1.mapMidTransceiver ∧
    otr = some { direction := RtpTransceiverDirection.sendOnly, track := some tk } ∧
    (err = SendErr.primaryCodecMissing ∨ err = SendErr.setRemoteFailed) ∧
    (err = SendErr.primaryCodecMissing → st2.remoteSdp = st1.remoteSdp) := by
  simp only [sendPostTry] at h
  repeat' split at h
  all_goals simp_all
  all_goals (obtain ⟨rfl, rfl, rfl⟩ := h)
  all_goals simp

theorem sendPostTry_ok (eng : Engine) (tk : Track) (localId : String)
    (encodings1 : Option (List RtpEncodingParameters)) (reuseMid : String)
    (st1 st2 : SendHandlerS) (otr : Option TransceiverState) (res : SendResult)
    (h : sendPostTry eng tk localId encodings1 reuseMid st1 =
      some (st2, otr, Except.ok res)) :
    ∃ encs1 c cs,
      populateEncodings encodings1 eng.offerEncodings = some encs1 ∧
      (assocGetD st1.sendingRtpParametersByKind tk.kind ({} : RtpParams)).codecs = c :: cs ∧
      res.localId = localId ∧
      res.rtpParameters.mid = some localId ∧
      res.rtpParameters.rtcpCname = some eng.offerCname ∧
      res.rtpParameters.codecs = c :: cs ∧
      res.rtpParameters.encodings = stampScalability c.mimeType encs1 ∧
      otr = some { direction := RtpTransceiverDirection.sendOnly, track := some tk } ∧
      st2.mapMidTransceiver = assocWrite st1.mapMidTransceiver localId () := by
  simp only [sendPostTry] at h
  repeat' split at h
  all_goals simp at h
  obtain ⟨rfl, rfl, rfl⟩ := h
  rename_i xPE encs1 hPE xC c cs hC xCA d1 hCA hSR
  exact ⟨encs1, c, cs, hPE, hC, rfl, rfl, rfl, hC, rfl, rfl, rfl⟩

theorem send_error_facts (eng : Engine) (tk : Track)
    (encodings : Option (List RtpEncodingParameters)) (st st1 : SendHandlerS)
    (otr : Option TransceiverState) (err : SendErr)
    (h : send eng (some tk) encodings st = some (st1, otr, Except.error err)) :
    st1.mapMidTransceiver = st.mapMidTransceiver ∧
    ((err = SendErr.createOfferFailed ∨ err = SendErr.connectFailed ∨
      err = SendErr.setLocalFailed ∨ err = SendErr.midAbsent) →
      otr = some { direction := RtpTransceiverDirection.inactive, track := none }) ∧
    (err ≠ SendErr.setRemoteFailed →
      st1.remoteSdp.midToIndex = st.remoteSdp.midToIndex ∧
      st1.remoteSdp.bundleMids = st.remoteSdp.bundleMids ∧
      st1.remoteSdp.sessionVersion = st.remoteSdp.sessionVersion) ∧
    (err ≠ SendErr.setRemoteFailed →
      (st.transportReady = true ∨ st.remoteSdp.mediaSections = []) →
      st1.remoteSdp.mediaSections = st.remoteSdp.mediaSections ∧
      st1.remoteSdp.sdpMedia = st.remoteSdp.sdpMedia) := by
  cases hTR : st.transportReady <;> cases hOC : eng.onConnectOk <;>
    simp only [send, setupTransport, hTR, hOC, Bool.not_true, Bool.not_false,
      Bool.false_eq_true, if_true, if_false, ite_true, ite_false] at h <;>
    repeat' split at h
  all_goals try
    (simp at h
     obtain ⟨rfl, rfl, rfl⟩ := h
     refine ⟨?_, ?_, ?_, ?_⟩ <;> (intros) <;> simp_all [updateDtlsRole])
  all_goals
    (obtain ⟨hmap, hotr, herr2, hdoc⟩ := sendPostTry_error _ _ _ _ _ _ _ _ _ h
     refine ⟨hmap, ?_, ?_, ?_⟩
     case _ =>
       intro hdisj
       rcases herr2 with rfl | rfl <;> simp at hdisj
     case _ =>
       intro hne
       rcases herr2 with rfl | rfl
       case _ =>
         rw [hdoc rfl]
         refine ⟨?_, ?_, ?_⟩ <;> simp [updateDtlsRole]
       case _ => exact absurd rfl hne
     case _ =>
       intro hne hpre
       rcases herr2 with rfl | rfl
       case _ =>
         rw [hdoc rfl]
         rcases hpre with htr | hsec
         case _ => refine ⟨?_, ?_⟩ <;> simp_all [updateDtlsRole]
         case _ => refine ⟨?_, ?_⟩ <;> simp_all [updateDtlsRole]
       case _ => exact absurd rfl hne)

theorem send_ok_facts (eng : Engine) (tk : Track)
    (encodings : Option (List RtpEncodingParameters)) (st st1 : SendHandlerS)
    (otr : Option TransceiverState) (res : SendResult)
    (h : send eng (some tk) encodings st = some (st1, otr, Except.ok res)) :
    ∃ localId encs1 c cs,
      eng.transceiverMid = some localId ∧
      populateEncodings (ridAdjust encodings) eng.offerEncodings = some encs1 ∧
      (assocGetD st.sendingRtpParametersByKind tk.kind ({} : RtpParams)).codecs = c :: cs ∧
      res.localId = localId ∧
      res.rtpParameters.mid = some localId ∧
      res.rtpParameters.rtcpCname = some eng.offerCname ∧
      res.rtpParameters.codecs = c :: cs ∧
      res.rtpParameters.encodings = stampScalability c.mimeType encs1 ∧
      otr = some { direction := RtpTransceiverDirection.sendOnly, track := some tk } := by
  cases hTR : st.transportReady <;> cases hOC : eng.onConnectOk <;>
    simp only [send, setupTransport, hTR, hOC, Bool.not_true, Bool.not_false,
      Bool.false_eq_true, if_true, if_false, ite_true, ite_false] at h <;>
    repeat' split at h
  all_goals try (simp at h)
  all_goals
    (obtain ⟨encs1, c, cs, hPE, hC, h1, h2, h3, h4, h5, h6, h7⟩ :=
       sendPostTry_ok _ _ _ _ _ _ _ _ _ h
     exact ⟨_, encs1, c, cs, by assumption, hPE, hC, h1, h2, h3, h4, h5, h6⟩)

/-! ## Claim C3: rollback of the transceiver on engine rejection -/

/-- C3: when the engine rejects the offer (`CreateOffer`, the transport
setup, or `SetLocalDescription` throws), `Send` re-raises the error, the
mid-to-transceiver map gains no entry, and the already-added transceiver is
set to direction `inactive` with its track cleared before the error
propagates. -/
theorem send_engine_reject_rollback (eng : Engine) (tk : Track)
    (encodings : Option (List RtpEncodingParameters)) (st st1 : SendHandlerS)
    (otr : Option TransceiverState) (err : SendErr)
    (h : send eng (some tk) encodings st = some (st1, otr, Except.error err))
    (herr : err = SendErr.createOfferFailed ∨ err = SendErr.connectFailed ∨
      err = SendErr.setLocalFailed) :
    otr = some { direction := RtpTransceiverDirection.inactive, track := none } ∧
    st1.mapMidTransceiver = st.mapMidTransceiver := by
  obtain ⟨hmap, hroll, h3, h4⟩ := send_error_facts eng tk encodings st st1 otr err h
  refine ⟨hroll ?_, hmap⟩
  rcases herr with rfl | rfl | rfl
  · exact Or.inl rfl
  · exact Or.inr (Or.inl rfl)
  · exact Or.inr (Or.inr (Or.inl rfl))

/-! ## Claim C2: what a failed send leaves behind -/

/-- C2 (amended): on any failing send operation the mid-to-transceiver
registry gains no entry; and for every failure up to and including the local
commit and mid read-back (that is, any error other than
`SetRemoteDescription` failing), the document model — media sections,
serialized media array, BUNDLE mids, session version — and the mid-to-index
registry are unchanged, provided sections do not pre-exist an unready
transport (as holds for every reachable send handler, since a send handler
commits its first section only after `SetupTransport` succeeded).  A
`SetRemoteDescription` failure, by contrast, happens after the answer
section is committed and the document serialized. -/
theorem send_failure_preserves_document (eng : Engine) (tk : Track)
    (encodings : Option (List RtpEncodingParameters)) (st st1 : SendHandlerS)
    (otr : Option TransceiverState) (err : SendErr)
    (h : send eng (some tk) encodings st = some (st1, otr, Except.error err))
    (hpre : st.transportReady = true ∨ st.remoteSdp.mediaSections = []) :
    st1.mapMidTransceiver = st.mapMidTransceiver ∧
    (err ≠ SendErr.setRemoteFailed →
      st1.remoteSdp.mediaSections = st.remoteSdp.mediaSections ∧
      st1.remoteSdp.sdpMedia = st.remoteSdp.sdpMedia ∧
      st1.remoteSdp.midToIndex = st.remoteSdp.midToIndex ∧
      st1.remoteSdp.bundleMids = st.remoteSdp.bundleMids ∧
      st1.remoteSdp.sessionVersion = st.remoteSdp.sessionVersion) := by
  obtain ⟨hmap, hroll, hdoc1, hdoc2⟩ := send_error_facts eng tk encodings st st1 otr err h
  refine ⟨hmap, ?_⟩
  intro hne
  obtain ⟨ha, hb, hc⟩ := hdoc1 hne
  obtain ⟨hd, he⟩ := hdoc2 hne hpre
  exact ⟨hd, he, ha, hb, hc⟩

/-! ## Claims C8 and C9: outgoing encodings of a successful send -/

theorem assignRidsFrom_length (i : Nat) (es : List RtpEncodingParameters) :
    (assignRidsFrom i es).length = es.length := by
  induction es generalizing i with
  | nil => rfl
  | cons e es ih => simp [assignRidsFrom, ih]

theorem populateEncodings_gt_one (es : List RtpEncodingParameters)
    (engs : List JsonEncoding) (hlen : es.length > 1) :
    populateEncodings (some es) engs =
      some (es.map (fun e => fillJsonRtpEncodingParameters {} e)) := by
  match es with
  | [] => simp at hlen
  | [e] => simp at hlen
  | a :: b :: rest => rfl

/-- C8: in a successful send, the outgoing encodings (up to the subsequent
scalability-mode stamping) are determined by exactly three cases on the
caller-supplied encoding list: none given — the engine-offer-derived
encodings verbatim; exactly one given — the engine-derived encodings with
the caller encoding's explicit fields overlaid onto the first; more than one
given — the caller's (RID-stamped) encodings rendered afresh, discarding the
engine-derived values. -/
theorem send_encodings_three_cases (eng : Engine) (tk : Track)
    (encodings : Option (List RtpEncodingParameters)) (st st1 : SendHandlerS)
    (otr : Option TransceiverState) (res : SendResult)
    (h : send eng (some tk) encodings st = some (st1, otr, Except.ok res)) :
    ∃ encs1 c cs,
      populateEncodings (ridAdjust encodings) eng.offerEncodings = some encs1 ∧
      (assocGetD st.sendingRtpParametersByKind tk.kind ({} : RtpParams)).codecs = c :: cs ∧
      res.rtpParameters.encodings = stampScalability c.mimeType encs1 ∧
      ((encodings = none ∨ encodings = some []) → encs1 = eng.offerEncodings) ∧
      (∀ e, encodings = some [e] →
        ∃ j js, eng.offerEncodings = j :: js ∧
          encs1 = fillJsonRtpEncodingParameters j e :: js) ∧
      (∀ es, encodings = some es → es.length > 1 →
        encs1 = (assignRidsFrom 0 es).map
          (fun e => fillJsonRtpEncodingParameters {} e)) := by
  obtain ⟨localId, encs1, c, cs, hmid, hPE, hC, h1, h2, h3, h4, h5, h6⟩ :=
    send_ok_facts eng tk encodings st st1 otr res h
  refine ⟨encs1, c, cs, hPE, hC, h5, ?_, ?_, ?_⟩
  · intro hcase
    rcases hcase with rfl | rfl
    · simpa [ridAdjust, populateEncodings] using hPE.symm
    · simpa [ridAdjust, populateEncodings] using hPE.symm
  · intro e hcase
    subst hcase
    simp only [ridAdjust, List.length_cons, List.length_nil] at hPE
    rw [if_neg (by omega)] at hPE
    cases hE : eng.offerEncodings with
    | nil => rw [hE] at hPE; simp [populateEncodings] at hPE
    | cons j js =>
      rw [hE] at hPE
      simp only [populateEncodings, Option.some.injEq] at hPE
      exact ⟨j, js, rfl, hPE.symm⟩
  · intro es hcase hlen
    subst hcase
    simp only [ridAdjust] at hPE
    rw [if_pos hlen] at hPE
    rw [populateEncodings_gt_one _ _ (by rw [assignRidsFrom_length]; exact hlen)] at hPE
    simp only [Option.some.injEq] at hPE
    exact hPE.symm

/-- C9: in a successful send, when the lower-cased primary mime type is
`video/vp8` or `video/h264` and the populated encoding list has more than
one entry, every outgoing encoding is stamped with scalability mode
`"S1T3"`; with a single encoding or any other primary codec, the stamping
step leaves the populated list unchanged, so no encoding receives the
marker from it. -/
theorem send_scalability_stamp (eng : Engine) (tk : Track)
    (encodings : Option (List RtpEncodingParameters)) (st st1 : SendHandlerS)
    (otr : Option TransceiverState) (res : SendResult)
    (h : send eng (some tk) encodings st = some (st1, otr, Except.ok res)) :
    ∃ encs1 c cs,
      populateEncodings (ridAdjust encodings) eng.offerEncodings = some encs1 ∧
      (assocGetD st.sendingRtpParametersByKind tk.kind ({} : RtpParams)).codecs = c :: cs ∧
      res.rtpParameters.encodings = stampScalability c.mimeType encs1 ∧
      ((toLowerAscii c.mimeType = "video/vp8" ∨ toLowerAscii c.mimeType = "video/h264") →
        encs1.length > 1 →
        ∀ e ∈ res.rtpParameters.encodings, e.scalabilityMode = some "S1T3") ∧
      ((encs1.length ≤ 1 ∨
        (toLowerAscii c.mimeType ≠ "video/vp8" ∧ toLowerAscii c.mimeType ≠ "video/h264")) →
        res.rtpParameters.encodings = encs1) := by
  obtain ⟨localId, encs1, c, cs, hmid, hPE, hC, h1, h2, h3, h4, h5, h6⟩ :=
    send_ok_facts eng tk encodings st st1 otr res h
  refine ⟨encs1, c, cs, hPE, hC, h5, ?_, ?_⟩
  · intro hmime hlen
    have hcond : (decide (encs1.length > 1) &&
        (toLowerAscii c.mimeType == "video/vp8" ||
         toLowerAscii c.mimeType == "video/h264")) = true := by
      rcases hmime with hm | hm <;> simp [hm, hlen]
    intro e hmem
    rw [h5] at hmem
    simp only [stampScalability, hcond, if_true] at hmem
    obtain ⟨x, hx, rfl⟩ := List.mem_map.mp hmem
    rfl
  · intro hneg
    have hcond : (decide (encs1.length > 1) &&
        (toLowerAscii c.mimeType == "video/vp8" ||
         toLowerAscii c.mimeType == "video/h264")) = false := by
      rcases hneg with hlen | ⟨hm1, hm2⟩
      · simp [show ¬(encs1.length > 1) from by omega]
      · simp [hm1, hm2]
    rw [h5]
    simp only [stampScalability, hcond]
    simp

/-! ## Concrete data for witnesses and counterexamples -/

def trackAudio : Track := { kind := "audio", id := "t0" }

def trackVideo : Track := { kind := "video", id := "t1" }

def opusParams : RtpParams := { codecs := [{ mimeType := "audio/opus" }] }

def vp8Params : RtpParams := { codecs := [{ mimeType := "video/VP8" }] }

/-- Engine whose `SetRemoteDescription` fails, everything else succeeding. -/
def engC2 : Engine :=
  { setRemoteOk := false
    transceiverMid := some "0"
    offerCname := "cn"
    offerMediaObject := { mid := "0", kind := "audio" } }

def handlerC2 : SendHandlerS :=
  { remoteSdp := mkRemoteSdp "uf" "pw" false "auto"
    sendingRtpParametersByKind := [("audio", opusParams)] }

/-- C2 (counterexample): with an engine whose `SetRemoteDescription` call
fails, the send operation fails — yet afterwards the mid-to-index registry
holds the new mid and the document holds the new media section, though both
were empty before the operation: a failed negotiation does not generally
leave the Document Model and the Registry in their pre-operation state. -/
theorem send_setRemote_failure_commits_section :
    ((send engC2 (some trackAudio) none handlerC2).map (fun r => r.2.2)) =
      some (Except.error SendErr.setRemoteFailed) ∧
    ((send engC2 (some trackAudio) none handlerC2).map
      (fun r => r.1.remoteSdp.midToIndex)) = some [("0", 0)] ∧
    handlerC2.remoteSdp.midToIndex = [] ∧
    ((send engC2 (some trackAudio) none handlerC2).map
      (fun r => r.1.remoteSdp.mediaSections.length)) = some 1 ∧
    handlerC2.remoteSdp.mediaSections = [] :=
  ⟨rfl, rfl, rfl, rfl, rfl⟩

/-- Engine whose `CreateOffer` fails. -/
def engC2w : Engine :=
  { createOfferOk := false
    offerMediaObject := { mid := "0", kind := "audio" } }

def handlerC2w : SendHandlerS :=
  { remoteSdp := mkRemoteSdp "uf" "pw" false "auto"
    sendingRtpParametersByKind := [("audio", opusParams)] }

theorem send_failure_preserves_document_witness :
    handlerC2w.mapMidTransceiver = handlerC2w.mapMidTransceiver ∧
    (SendErr.createOfferFailed ≠ SendErr.setRemoteFailed →
      handlerC2w.remoteSdp.mediaSections = handlerC2w.remoteSdp.mediaSections ∧
      handlerC2w.remoteSdp.sdpMedia = handlerC2w.remoteSdp.sdpMedia ∧
      handlerC2w.remoteSdp.midToIndex = handlerC2w.remoteSdp.midToIndex ∧
      handlerC2w.remoteSdp.bundleMids = handlerC2w.remoteSdp.bundleMids ∧
      handlerC2w.remoteSdp.sessionVersion = handlerC2w.remoteSdp.sessionVersion) :=
  send_failure_preserves_document engC2w trackAudio none handlerC2w handlerC2w
    (some { direction := RtpTransceiverDirection.inactive, track := none })
    SendErr.createOfferFailed rfl (Or.inr rfl)

/-- Engine whose `CreateOffer` fails (rollback witness). -/
def engC3 : Engine :=
  { createOfferOk := false
    offerMediaObject := { mid := "9", kind := "audio" } }

def handlerC3 : SendHandlerS :=
  { remoteSdp := mkRemoteSdp "u3" "p3" false "auto" }

theorem send_engine_reject_rollback_witness :
    (some { direction := RtpTransceiverDirection.inactive, track := none } :
        Option TransceiverState) =
      some { direction := RtpTransceiverDirection.inactive, track := none } ∧
    handlerC3.mapMidTransceiver = handlerC3.mapMidTransceiver :=
  send_engine_reject_rollback engC3 trackAudio none handlerC3 handlerC3
    (some { direction := RtpTransceiverDirection.inactive, track := none })
    SendErr.createOfferFailed rfl (Or.inl rfl)

/-- One caller encoding carrying `maxBitrate = 500000`. -/
def encC8 : RtpEncodingParameters := { maxBitrateBps := some 500000 }

def engC8 : Engine :=
  { transceiverMid := some "0"
    offerCname := "cname0"
    offerEncodings := [{ ssrc := some 1111 }]
    offerMediaObject := { mid := "0", kind := "audio" } }

def handlerC8 : SendHandlerS :=
  { remoteSdp := mkRemoteSdp "uf" "pw" false "auto"
    sendingRtpParametersByKind := [("audio", opusParams)] }

def c8Out : SendHandlerS × Option TransceiverState × Except SendErr SendResult :=
  (send engC8 (some trackAudio) (some [encC8]) handlerC8).getD
    (handlerC8, none, Except.error SendErr.missingTrack)

def resC8 : SendResult :=
  match c8Out.2.2 with
  | Except.ok r => r
  | Except.error _ => { localId := "", rtpParameters := {} }

theorem send_encodings_three_cases_witness :
    (∃ encs1 c cs,
      populateEncodings (ridAdjust (some [encC8])) engC8.offerEncodings = some encs1 ∧
      (assocGetD handlerC8.sendingRtpParametersByKind trackAudio.kind
        ({} : RtpParams)).codecs = c :: cs ∧
      resC8.rtpParameters.encodings = stampScalability c.mimeType encs1 ∧
      ((some [encC8] = none ∨ some [encC8] = some []) → encs1 = engC8.offerEncodings) ∧
      (∀ e, some [encC8] = some [e] →
        ∃ j js, engC8.offerEncodings = j :: js ∧
          encs1 = fillJsonRtpEncodingParameters j e :: js) ∧
      (∀ es, some [encC8] = some es → es.length > 1 →
        encs1 = (assignRidsFrom 0 es).map
          (fun e => fillJsonRtpEncodingParameters {} e))) ∧
    resC8.rtpParameters.encodings =
      [{ ssrc := some 1111
         active := some true
         maxBitrate := some 500000
         networkPriority := some Priority.low }] :=
  ⟨send_encodings_three_cases engC8 trackAudio (some [encC8]) handlerC8
    c8Out.1 c8Out.2.1 resC8 rfl, rfl⟩

/-- Two default caller encodings (simulcast request). -/
def encsC9 : List RtpEncodingParameters := [{}, {}]

def engC9 : Engine :=
  { transceiverMid := some "0"
    offerCname := "cn9"
    offerEncodings := []
    offerMediaObject := { mid := "0", kind := "video" } }

def handlerC9 : SendHandlerS :=
  { remoteSdp := mkRemoteSdp "uf" "pw" false "auto"
    sendingRtpParametersByKind := [("video", vp8Params)] }

def c9Out : SendHandlerS × Option TransceiverState × Except SendErr SendResult :=
  (send engC9 (some trackVideo) (some encsC9) handlerC9).getD
    (handlerC9, none, Except.error SendErr.missingTrack)

def resC9 : SendResult :=
  match c9Out.2.2 with
  | Except.ok r => r
  | Except.error _ => { localId := "", rtpParameters := {} }

theorem send_scalability_stamp_witness :
    (∃ encs1 c cs,
      populateEncodings (ridAdjust (some encsC9)) engC9.offerEncodings = some encs1 ∧
      (assocGetD handlerC9.sendingRtpParametersByKind trackVideo.kind
        ({} : RtpParams)).codecs = c :: cs ∧
      resC9.rtpParameters.encodings = stampScalability c.mimeType encs1 ∧
      ((toLowerAscii c.mimeType = "video/vp8" ∨ toLowerAscii c.mimeType = "video/h264") →
        encs1.length > 1 →
        ∀ e ∈ resC9.rtpParameters.encodings, e.scalabilityMode = some "S1T3") ∧
      ((encs1.length ≤ 1 ∨
        (toLowerAscii c.mimeType ≠ "video/vp8" ∧ toLowerAscii c.mimeType ≠ "video/h264")) →
        resC9.rtpParameters.encodings = encs1)) ∧
    resC9.rtpParameters.encodings.map (fun e => e.scalabilityMode) =
      [some "S1T3", some "S1T3"] :=
  ⟨send_scalability_stamp engC9 trackVideo (some encsC9) handlerC9
    c9Out.1 c9Out.2.1 resC9 rfl, rfl⟩

/-- A run of document operations: two added sections, the anchor disabled,
the second closed, its slot reused by a replacement answer section. -/
def opsC1 : List DocOp :=
  [DocOp.offerOp "0" "audio", DocOp.offerOp "1" "video",
   DocOp.closeOp "0", DocOp.closeOp "1",
   DocOp.answerOp { mid := "2", kind := "video" } "1"]

def c1St : RemoteSdpS :=
  (applyDocOps opsC1 (mkRemoteSdp "uf" "pw" false "auto")).getD
    (mkRemoteSdp "" "" false "")

theorem bundleMids_eq_open_section_mids_witness :
    c1St.bundleMids =
      spaceSep ((c1St.mediaSections.filter (fun s => !s.IsClosed)).map
        (fun s => s.mid)) :=
  bundleMids_eq_open_section_mids "uf" "pw" false "auto" opsC1 c1St rfl (by decide)

/-- Three sections of which the middle one is closed. -/
def c4Secs : List MediaSectionS :=
  [mkOfferSection "u" "p" "0" "audio",
   (mkOfferSection "u" "p" "1" "video").close,
   mkOfferSection "u" "p" "2" "video"]

theorem getNextMediaSectionIdx_spec_witness :
    ((getNextMediaSectionIdx c4Secs).idx = c4Secs.length ∧
      (getNextMediaSectionIdx c4Secs).reuseMid = "" ∧
      ∀ s ∈ c4Secs, s.IsClosed = false) ∨
    (∃ s, c4Secs[(getNextMediaSectionIdx c4Secs).idx]? = some s ∧ s.IsClosed = true ∧
      (getNextMediaSectionIdx c4Secs).reuseMid = s.mid ∧
      ∀ j, j < (getNextMediaSectionIdx c4Secs).idx →
        ∀ t, c4Secs[j]? = some t → t.IsClosed = false) :=
  getNextMediaSectionIdx_spec c4Secs

/-- Document with two sections whose anchor mid is `"0"`. -/
def c5Doc : RemoteSdpS :=
  createOfferSection
    (createOfferSection (mkRemoteSdp "u" "p" false "auto") "0" "audio") "1" "video"

def c5Sec : MediaSectionS := mkOfferSection "u" "p" "0" "audio"

theorem closeMediaSection_firstMid_disables_witness :
    mapFind c5Doc.midToIndex c5Doc.firstMid = some 0 ∧
    c5Doc.mediaSections[0]? = some c5Sec ∧
    c5Sec.disable.port = c5Sec.port := by
  have h := closeMediaSection_firstMid_disables c5Doc 0 c5Sec rfl rfl
  exact ⟨rfl, rfl, h.2.1⟩

theorem getSdp_version_strictly_increases_witness :
    (getSdp (getSdp c6Doc).1).2 > (getSdp c6Doc).2 :=
  getSdp_version_strictly_increases c6Doc [] (getSdp c6Doc).1 rfl (by decide)

end Mediasoup
